import Mathlib

/-!
Shallow embedding of `src/role-patcher.py`, a Kubernetes RBAC reconciler.

The program classifies API resource types into role-management ("privileged")
and non-privileged sets, maintains one shared ClusterRole built from that
classification, and consumes a stream of namespace events, attaching a
RoleBinding referencing the shared role to every newly added non-protected
namespace.

The cluster API is modelled explicitly: each API call consumes the cluster
state plus an optional injected fault (an `ApiException` with a numeric
status) and either returns a value / an updated state or raises the fault.
A faithful API answers reads from the state (absence surfaces as status 404)
and rejects duplicate creations with status 409.
-/

namespace RolePatcher

/-- `TARGET_USER` constant (line 29 of the source). -/
def TARGET_USER : String := "k8user"

/-- `ROLE_RESOURCES` constant (line 33): the role-management resource set. -/
def ROLE_RESOURCES : List String :=
  ["roles", "rolebindings", "clusterroles", "clusterrolebindings"]

/-- `READ_VERBS` constant (line 34). -/
def READ_VERBS : List String := ["get", "list", "watch"]

/-- `CUSTOM_ROLE_NAME` constant (line 37): name of the shared ClusterRole. -/
def CUSTOM_ROLE_NAME : String := TARGET_USER ++ "-custom-role"

/-- `PROTECTED_NAMESPACES` constant (line 39). -/
def PROTECTED_NAMESPACES : List String := ["kube-system"]

/-- A Kubernetes `ApiException`: only the HTTP status matters to the program. -/
structure ApiErr where
  status : Nat
deriving DecidableEq, Repr

/-- `client.V1PolicyRule` as built by the program. -/
structure V1PolicyRule where
  api_groups : List String
  resources : List String
  verbs : List String
deriving DecidableEq, Repr

/-- `client.V1ClusterRole` as built by the program. -/
structure V1ClusterRole where
  name : String
  rules : List V1PolicyRule
deriving DecidableEq, Repr

/-- `client.V1RoleBinding` as built by the program (`ns` is the namespace). -/
structure V1RoleBinding where
  ns : String
  name : String
  role_ref_kind : String
  role_ref_name : String
  subject : String
deriving DecidableEq, Repr

/-- The ClusterRole body built by `create_custom_cluster_role`
(lines 152-168): two rules, wildcard verbs over the non-privileged
resources and read verbs over `ROLE_RESOURCES`. -/
def create_custom_cluster_role_body (non_role_resources : List String) :
    V1ClusterRole :=
  { name := CUSTOM_ROLE_NAME
    rules := [ { api_groups := ["*"], resources := non_role_resources,
                 verbs := ["*"] },
               { api_groups := ["*"], resources := ROLE_RESOURCES,
                 verbs := READ_VERBS } ] }

/-- The RoleBinding body built by `create_custom_role_binding`
(lines 189-195). -/
def create_custom_role_binding_body (ns role_binding_name role_name
    rkind : String) : V1RoleBinding :=
  { ns := ns, name := role_binding_name, role_ref_kind := rkind,
    role_ref_name := role_name, subject := TARGET_USER }

/-- `get_resource_list` (lines 201-232): each catalog query
(`get_api_resources`, `list_custom_resource_definition`) may raise an
`ApiException`; on success the three name lists are concatenated
(`list.extend`), duplicates included. -/
def get_resource_list (r1 r2 r3 : Except ApiErr (List String)) :
    Except ApiErr (List String) :=
  match r1 with
  | .error e => .error e
  | .ok resources =>
    match r2 with
    | .error e => .error e
    | .ok app_resources =>
      match r3 with
      | .error e => .error e
      | .ok custom_resources =>
        .ok (resources ++ app_resources ++ custom_resources)

/-- `get_non_privilege_resource_list` (lines 235-249):
`list(set(resources) - set(ROLE_RESOURCES))`.  Python's set difference is
modelled as filtering out `ROLE_RESOURCES` and deduplicating; the Python
iteration order of a set is unspecified, so the model fixes one
duplicate-free, membership-equal representative. -/
def get_non_privilege_resource_list (r1 r2 r3 : Except ApiErr (List String)) :
    Except ApiErr (List String) :=
  match get_resource_list r1 r2 r3 with
  | .error e => .error e
  | .ok resources =>
    .ok ((resources.filter (fun r => decide (r ∉ ROLE_RESOURCES))).dedup)

/-- `cluster_role_exists` (lines 64-84), abstracted over the result of the
underlying `read_cluster_role` call: success maps to `true`, a 404
`ApiException` maps to `false`, any other `ApiException` is re-raised. -/
def cluster_role_exists (read_result : Except ApiErr Unit) :
    Except ApiErr Bool :=
  match read_result with
  | .ok _ => .ok true
  | .error e => if e.status = 404 then .ok false else .error e

/-- `role_binding_exists` (lines 86-107), abstracted over the result of the
underlying `read_namespaced_role_binding` call: same not-found handling as
`cluster_role_exists`. -/
def role_binding_exists (read_result : Except ApiErr Unit) :
    Except ApiErr Bool :=
  match read_result with
  | .ok _ => .ok true
  | .error e => if e.status = 404 then .ok false else .error e

/-- The cluster state the program mutates: the shared ClusterRole slot
(Kubernetes keeps at most one object under `CUSTOM_ROLE_NAME`) and the set
of RoleBindings across all namespaces. -/
structure ClusterState where
  custom_cluster_role : Option V1ClusterRole
  role_bindings : List V1RoleBinding
deriving DecidableEq, Repr

/-- Whether a RoleBinding with the given namespace and name is in the state. -/
def has_binding (s : ClusterState) (ns name : String) : Bool :=
  s.role_bindings.any (fun b => b.ns == ns && b.name == name)

/-- `api_instance.read_cluster_role(CUSTOM_ROLE_NAME)`: an injected fault is
raised as-is; otherwise absence answers 404 and presence succeeds. -/
def read_cluster_role (fault : Option ApiErr) (s : ClusterState) :
    Except ApiErr Unit :=
  match fault with
  | some e => .error e
  | none =>
    match s.custom_cluster_role with
    | some _ => .ok ()
    | none => .error { status := 404 }

/-- `api_instance.read_namespaced_role_binding(name, namespace)`: same fault
and not-found behaviour as `read_cluster_role`. -/
def read_namespaced_role_binding (fault : Option ApiErr) (s : ClusterState)
    (ns name : String) : Except ApiErr Unit :=
  match fault with
  | some e => .error e
  | none =>
    if has_binding s ns name then .ok () else .error { status := 404 }

/-- `api_instance.create_cluster_role(body)`: an injected fault is raised;
a duplicate creation is rejected with 409 (Conflict). -/
def create_cluster_role (fault : Option ApiErr) (s : ClusterState)
    (body : V1ClusterRole) : Except ApiErr ClusterState :=
  match fault with
  | some e => .error e
  | none =>
    match s.custom_cluster_role with
    | some _ => .error { status := 409 }
    | none => .ok { s with custom_cluster_role := some body }

/-- `api_instance.create_namespaced_role_binding(namespace, body)`: an
injected fault is raised; a duplicate creation is rejected with 409. -/
def create_namespaced_role_binding (fault : Option ApiErr) (s : ClusterState)
    (body : V1RoleBinding) : Except ApiErr ClusterState :=
  match fault with
  | some e => .error e
  | none =>
    if has_binding s body.ns body.name then .error { status := 409 }
    else .ok { s with role_bindings := body :: s.role_bindings }

/-- A namespace event from `w.stream(core_v1.list_namespace)`: its `type`
(`ADDED`/`MODIFIED`/`DELETED`) and `object.metadata.name`. -/
structure NamespaceEvent where
  type : String
  namespace_name : String
deriving DecidableEq, Repr

/-- Per-event environment: what the three resource catalogs answer if
queried during this event, and the faults (if any) injected into each
cluster-API call the loop body can make. -/
structure EventEnv where
  core_resources : Except ApiErr (List String)
  app_resources : Except ApiErr (List String)
  custom_resources : Except ApiErr (List String)
  read_role_fault : Option ApiErr
  create_role_fault : Option ApiErr
  read_binding_fault : Option ApiErr
  create_binding_fault : Option ApiErr

/-- An environment in which every API call succeeds: the catalogs answer
the given lists and no fault is injected anywhere. -/
def honest_env (l1 l2 l3 : List String) : EventEnv :=
  { core_resources := .ok l1, app_resources := .ok l2,
    custom_resources := .ok l3, read_role_fault := none,
    create_role_fault := none, read_binding_fault := none,
    create_binding_fault := none }

/-- The `try` block of lines 308-312: recreate the shared role from a fresh
classification; on any `ApiException` (from a catalog query or the create)
the error is only logged, leaving the state unchanged. -/
def try_recreate_role (env : EventEnv) (s : ClusterState) : ClusterState :=
  match get_non_privilege_resource_list env.core_resources
      env.app_resources env.custom_resources with
  | .error _ => s
  | .ok res =>
    match create_cluster_role env.create_role_fault s
        (create_custom_cluster_role_body res) with
    | .ok s2 => s2
    | .error _ => s

/-- One iteration of the `for event in w.stream(...)` body (lines 290-320).
Returns the cluster state as left by the iteration, paired with
`some e` when an `ApiException` escapes the body (terminating the loop)
and `none` when the iteration completes.

Translation notes: `DELETED`/`MODIFIED` events and protected namespaces
are skipped (`continue`); otherwise the body checks the shared role,
recreates it via `try_recreate_role` when absent, then checks the binding
and creates it inside a `try` when absent.  The two `*_exists` checks
re-raise non-404 errors outside any `try`, so those escape the body with
the state as mutated so far. -/
def process_event (env : EventEnv) (s : ClusterState) (ev : NamespaceEvent) :
    ClusterState × Option ApiErr :=
  if ev.type = "DELETED" ∨ ev.type = "MODIFIED" then (s, none)
  else if ev.namespace_name ∈ PROTECTED_NAMESPACES then (s, none)
  else
    match cluster_role_exists (read_cluster_role env.read_role_fault s) with
    | .error e => (s, some e)
    | .ok role_present =>
      match role_binding_exists (read_namespaced_role_binding
          env.read_binding_fault
          (if role_present then s else try_recreate_role env s)
          ev.namespace_name
          (ev.namespace_name ++ "-custom-rolebinding")) with
      | .error e =>
        ((if role_present then s else try_recreate_role env s), some e)
      | .ok binding_present =>
        if binding_present then
          ((if role_present then s else try_recreate_role env s), none)
        else
          match create_namespaced_role_binding env.create_binding_fault
              (if role_present then s else try_recreate_role env s)
              (create_custom_role_binding_body ev.namespace_name
                (ev.namespace_name ++ "-custom-rolebinding")
                CUSTOM_ROLE_NAME "ClusterRole") with
          | .ok s2 => (s2, none)
          | .error _ =>
            ((if role_present then s else try_recreate_role env s), none)

/-- The event loop over a finite portion of the stream: events are
processed in order; an `ApiException` escaping one body terminates the
loop, leaving the state as that iteration left it. -/
def run_events : List (NamespaceEvent × EventEnv) → ClusterState →
    ClusterState × Option ApiErr
  | [], s => (s, none)
  | (ev, env) :: rest, s =>
    match process_event env s ev with
    | (s1, none) => run_events rest s1
    | (s1, some e) => (s1, some e)

/-- The RoleBindings of state `s` that live in namespace `ns`. -/
def bindings_in (s : ClusterState) (ns : String) : List V1RoleBinding :=
  s.role_bindings.filter (fun b => b.ns == ns)

/-- The number of RoleBindings in `s` with the given namespace and name. -/
def binding_count (s : ClusterState) (ns name : String) : Nat :=
  (s.role_bindings.filter (fun b => b.ns == ns && b.name == name)).length

end RolePatcher

namespace RolePatcher

/-- With no injected fault, the shared-role existence check reports whether
the state holds the shared role. -/
lemma cluster_role_exists_no_fault (s : ClusterState) :
    cluster_role_exists (read_cluster_role none s) =
      .ok s.custom_cluster_role.isSome := by
  cases h : s.custom_cluster_role <;>
    simp [read_cluster_role, cluster_role_exists, h]

/-- With no injected fault, the binding existence check reports
`has_binding`. -/
lemma role_binding_exists_no_fault (s : ClusterState) (ns name : String) :
    role_binding_exists (read_namespaced_role_binding none s ns name) =
      .ok (has_binding s ns name) := by
  cases h : has_binding s ns name <;>
    simp [read_namespaced_role_binding, role_binding_exists, h]

/-- A successful ClusterRole creation sets the shared-role slot and leaves
the bindings untouched. -/
lemma create_cluster_role_ok {fault : Option ApiErr} {s : ClusterState}
    {body : V1ClusterRole} {s2 : ClusterState}
    (h : create_cluster_role fault s body = .ok s2) :
    s2.role_bindings = s.role_bindings ∧
      s2.custom_cluster_role = some body := by
  unfold create_cluster_role at h
  cases fault with
  | some e => exact absurd h (by simp)
  | none =>
    cases hr : s.custom_cluster_role with
    | some r => rw [hr] at h; exact absurd h (by simp)
    | none => rw [hr] at h; cases h; exact ⟨rfl, rfl⟩

/-- The role-recreation `try` block never touches the bindings. -/
lemma try_recreate_role_bindings (env : EventEnv) (s : ClusterState) :
    (try_recreate_role env s).role_bindings = s.role_bindings := by
  unfold try_recreate_role
  split
  · rfl
  · split
    · next s2 hc => exact (create_cluster_role_ok hc).1
    · rfl

/-- In an all-honest environment, recreating an absent shared role installs
the role built from the current classification and changes nothing else. -/
lemma try_recreate_role_honest (l1 l2 l3 : List String) (s : ClusterState)
    (h : s.custom_cluster_role = none) :
    try_recreate_role (honest_env l1 l2 l3) s =
      { s with custom_cluster_role := some (create_custom_cluster_role_body
          (((l1 ++ l2 ++ l3).filter
            (fun r => decide (r ∉ ROLE_RESOURCES))).dedup)) } := by
  unfold try_recreate_role honest_env get_non_privilege_resource_list
    get_resource_list create_cluster_role
  simp [h]

/-- Each loop iteration either leaves the bindings unchanged or prepends
exactly the binding body for the event's namespace, and in the latter case
that namespace is not protected and held no binding of that name before. -/
lemma process_event_bindings_cases (env : EventEnv) (s : ClusterState)
    (ev : NamespaceEvent) :
    (process_event env s ev).1.role_bindings = s.role_bindings ∨
    ((process_event env s ev).1.role_bindings =
        create_custom_role_binding_body ev.namespace_name
          (ev.namespace_name ++ "-custom-rolebinding") CUSTOM_ROLE_NAME
          "ClusterRole" :: s.role_bindings ∧
      ev.namespace_name ∉ PROTECTED_NAMESPACES ∧
      has_binding s ev.namespace_name
        (ev.namespace_name ++ "-custom-rolebinding") = false) := by
  unfold process_event
  by_cases ht : ev.type = "DELETED" ∨ ev.type = "MODIFIED"
  · left; simp [ht]
  · simp only [if_neg ht]
    by_cases hp : ev.namespace_name ∈ PROTECTED_NAMESPACES
    · left; simp [hp]
    · simp only [if_neg hp]
      split
      · left; rfl
      · next role_present hre =>
        have hs1 : (if role_present = true then s
            else try_recreate_role env s).role_bindings = s.role_bindings := by
          cases role_present with
          | false => simpa using try_recreate_role_bindings env s
          | true => rfl
        split
        · left; exact hs1
        · next binding_present hbe =>
          split
          · left; exact hs1
          · split
            · next s2 hc =>
              right
              unfold create_namespaced_role_binding at hc
              cases henv : env.create_binding_fault with
              | some e => rw [henv] at hc; exact absurd hc (by simp)
              | none =>
                rw [henv] at hc
                by_cases hb : has_binding (if role_present = true then s
                    else try_recreate_role env s)
                    (create_custom_role_binding_body ev.namespace_name
                      (ev.namespace_name ++ "-custom-rolebinding")
                      CUSTOM_ROLE_NAME "ClusterRole").ns
                    (create_custom_role_binding_body ev.namespace_name
                      (ev.namespace_name ++ "-custom-rolebinding")
                      CUSTOM_ROLE_NAME "ClusterRole").name = true
                · rw [if_pos hb] at hc; exact absurd hc (by simp)
                · rw [if_neg hb] at hc
                  cases hc
                  refine ⟨by simpa using hs1, hp, ?_⟩
                  simp only [Bool.not_eq_true] at hb
                  simpa [has_binding, create_custom_role_binding_body,
                    hs1] using hb
            · left; exact hs1

/-- One loop iteration never changes the bindings of a protected
namespace. -/
lemma bindings_in_process_event_protected (env : EventEnv) (s : ClusterState)
    (ev : NamespaceEvent) (ns : String) (hns : ns ∈ PROTECTED_NAMESPACES) :
    bindings_in (process_event env s ev).1 ns = bindings_in s ns := by
  rcases process_event_bindings_cases env s ev with h | ⟨h, hp, _⟩
  · unfold bindings_in; rw [h]
  · unfold bindings_in
    rw [h]
    have hne : ev.namespace_name ≠ ns := fun he => hp (he ▸ hns)
    rw [List.filter_cons]
    simp [create_custom_role_binding_body, hne]

/-- `has_binding` only inspects the bindings. -/
lemma has_binding_congr {s t : ClusterState}
    (h : t.role_bindings = s.role_bindings) (ns name : String) :
    has_binding t ns name = has_binding s ns name := by
  unfold has_binding; rw [h]

/-- The existence check is false exactly when no binding of that namespace
and name is present. -/
lemma has_binding_eq_false_iff (s : ClusterState) (ns name : String) :
    has_binding s ns name = false ↔ binding_count s ns name = 0 := by
  unfold has_binding binding_count
  rw [List.length_eq_zero, List.filter_eq_nil_iff, List.any_eq_false]

/-- The optional self-heal between the two existence checks leaves the
bindings as they were. -/
lemma bindings_if_recreate (c : Bool) (env : EventEnv) (s : ClusterState) :
    (if c then s else try_recreate_role env s).role_bindings =
      s.role_bindings := by
  cases c
  · exact try_recreate_role_bindings env s
  · rfl

/-- The optional self-heal between the two existence checks does not
affect what bindings are seen. -/
lemma has_binding_if_recreate (c : Bool) (env : EventEnv) (s : ClusterState)
    (ns name : String) :
    has_binding (if c then s else try_recreate_role env s) ns name =
      has_binding s ns name :=
  has_binding_congr (bindings_if_recreate c env s) ns name

/-- In an all-honest environment, the shared role is present after the
role sub-step, whether it already existed or was just recreated. -/
lemma custom_role_if_recreate_honest (l1 l2 l3 : List String)
    (s : ClusterState) :
    (if s.custom_cluster_role.isSome then s
      else try_recreate_role (honest_env l1 l2 l3) s).custom_cluster_role.isSome
      = true := by
  cases hr : s.custom_cluster_role with
  | some r => simp [hr]
  | none => simp [hr, try_recreate_role_honest l1 l2 l3 s hr]

/-- Right after a successful binding creation, the existence check finds
the binding. -/
lemma has_binding_after_create (t : ClusterState) (ns name : String) :
    has_binding { t with role_bindings :=
        (create_custom_role_binding_body ns name CUSTOM_ROLE_NAME
          "ClusterRole") :: t.role_bindings } ns name = true := by
  simp [has_binding, create_custom_role_binding_body]

/-- When neither existence check is faulted and binding creation is not
faulted, processing an ADDED event for a non-protected namespace either
finds the binding and only (possibly) self-heals the role, or additionally
prepends the freshly built binding. -/
lemma process_event_step (env : EventEnv) (ns : String) (s : ClusterState)
    (hrf : env.read_role_fault = none)
    (hbf : env.read_binding_fault = none)
    (hcf : env.create_binding_fault = none)
    (hns : ns ∉ PROTECTED_NAMESPACES) :
    process_event env s { type := "ADDED", namespace_name := ns } =
      (if has_binding s ns (ns ++ "-custom-rolebinding") then
        ((if s.custom_cluster_role.isSome then s
          else try_recreate_role env s), none)
      else
        ({ (if s.custom_cluster_role.isSome then s
            else try_recreate_role env s) with
           role_bindings := create_custom_role_binding_body ns
             (ns ++ "-custom-rolebinding") CUSTOM_ROLE_NAME "ClusterRole" ::
             (if s.custom_cluster_role.isSome then s
              else try_recreate_role env s).role_bindings },
         none)) := by
  unfold process_event
  rw [hrf, hbf, hcf]
  simp only [cluster_role_exists_no_fault, role_binding_exists_no_fault]
  rw [if_neg (show ¬(("ADDED" : String) = "DELETED" ∨
    ("ADDED" : String) = "MODIFIED") by decide), if_neg hns]
  rw [has_binding_if_recreate]
  by_cases hb : has_binding s ns (ns ++ "-custom-rolebinding") = true
  · rw [if_pos hb, if_pos hb]
  · rw [if_neg hb, if_neg hb]
    unfold create_namespaced_role_binding
    rw [has_binding_if_recreate]
    simp only [Bool.not_eq_true] at hb
    simp [create_custom_role_binding_body, hb]

/-- Specialisation of `process_event_step` to an all-honest environment. -/
lemma process_event_honest_step (l1 l2 l3 : List String) (ns : String)
    (s : ClusterState) (hns : ns ∉ PROTECTED_NAMESPACES) :
    process_event (honest_env l1 l2 l3) s
        { type := "ADDED", namespace_name := ns } =
      (if has_binding s ns (ns ++ "-custom-rolebinding") then
        ((if s.custom_cluster_role.isSome then s
          else try_recreate_role (honest_env l1 l2 l3) s), none)
      else
        ({ (if s.custom_cluster_role.isSome then s
            else try_recreate_role (honest_env l1 l2 l3) s) with
           role_bindings := create_custom_role_binding_body ns
             (ns ++ "-custom-rolebinding") CUSTOM_ROLE_NAME "ClusterRole" ::
             (if s.custom_cluster_role.isSome then s
              else try_recreate_role (honest_env l1 l2 l3) s).role_bindings },
         none)) :=
  process_event_step (honest_env l1 l2 l3) ns s rfl rfl rfl hns

/-- After a non-faulted ADDED iteration for a non-protected namespace, the
binding for that namespace exists and no error escaped. -/
lemma process_event_step_binding_present (env : EventEnv) (ns : String)
    (s : ClusterState) (hrf : env.read_role_fault = none)
    (hbf : env.read_binding_fault = none)
    (hcf : env.create_binding_fault = none)
    (hns : ns ∉ PROTECTED_NAMESPACES) :
    has_binding (process_event env s
        { type := "ADDED", namespace_name := ns }).1 ns
      (ns ++ "-custom-rolebinding") = true ∧
    (process_event env s
        { type := "ADDED", namespace_name := ns }).2 = none := by
  rw [process_event_step env ns s hrf hbf hcf hns]
  by_cases hb : has_binding s ns (ns ++ "-custom-rolebinding") = true
  · rw [if_pos hb]
    exact ⟨by rw [has_binding_if_recreate]; exact hb, rfl⟩
  · rw [if_neg hb]
    exact ⟨has_binding_after_create _ ns (ns ++ "-custom-rolebinding"), rfl⟩

/-- C1: For every triple of resource-name lists successfully returned by the
three catalogs, the list computed by `get_non_privilege_resource_list`
contains no member of `ROLE_RESOURCES`. -/
theorem C1_non_privileged_excludes_role_resources
    (l1 l2 l3 : List String) (res : List String)
    (h : get_non_privilege_resource_list (.ok l1) (.ok l2) (.ok l3) =
      .ok res) :
    ∀ x ∈ ROLE_RESOURCES, x ∉ res := by
  intro x hx
  simp only [get_non_privilege_resource_list, get_resource_list,
    Except.ok.injEq] at h
  subst h
  simp only [List.mem_dedup, List.mem_filter, decide_eq_true_eq]
  intro hmem
  exact hmem.2 hx

/-- Witness for C1 at concrete catalogs: roles is excluded. -/
theorem C1_witness :
    ("roles" : String) ∉ (["pods", "deployments"] : List String) :=
  C1_non_privileged_excludes_role_resources
    ["pods", "roles"] ["deployments", "rolebindings"]
    ["clusterroles", "clusterrolebindings"] ["pods", "deployments"] rfl
    "roles" (by decide)

/-- C2: For every non-privileged resource list, `create_custom_cluster_role`
builds the shared role with exactly two rules: wildcard api-groups and
verbs over the given resources, and read verbs over the role-management
resources. -/
theorem C2_shared_role_has_two_rules (non_role_resources : List String) :
    (create_custom_cluster_role_body non_role_resources).rules.length = 2 ∧
    (create_custom_cluster_role_body non_role_resources).rules =
      [ { api_groups := ["*"], resources := non_role_resources,
          verbs := ["*"] },
        { api_groups := ["*"],
          resources := ["roles", "rolebindings", "clusterroles",
            "clusterrolebindings"],
          verbs := ["get", "list", "watch"] } ] :=
  ⟨rfl, rfl⟩

/-- C3: Over every sequence of namespace events (with arbitrary catalog
answers and injected faults), the reconciliation loop never creates a
RoleBinding in a namespace belonging to `PROTECTED_NAMESPACES`, regardless
of event type: the bindings of such a namespace in the final state are
exactly those of the initial state. -/
theorem C3_no_binding_for_protected_namespace
    (ns : String) (hns : ns ∈ PROTECTED_NAMESPACES)
    (steps : List (NamespaceEvent × EventEnv)) (s : ClusterState) :
    bindings_in (run_events steps s).1 ns = bindings_in s ns := by
  induction steps generalizing s with
  | nil => rfl
  | cons step rest ih =>
    obtain ⟨ev, env⟩ := step
    have hstep := bindings_in_process_event_protected env s ev ns hns
    unfold run_events
    split
    · next s1 hp1 =>
      rw [ih s1]
      rw [hp1] at hstep
      exact hstep
    · next s1 e hp1 =>
      rw [hp1] at hstep
      exact hstep

/-- Witness for C3: an ADDED event for kube-system itself leaves its
bindings empty. -/
theorem C3_witness :
    bindings_in (run_events
      [({ type := "ADDED", namespace_name := "kube-system" },
        honest_env ["pods"] ["deployments"] [])]
      { custom_cluster_role := none, role_bindings := [] }).1 "kube-system" =
    bindings_in
      { custom_cluster_role := none, role_bindings := [] } "kube-system" :=
  C3_no_binding_for_protected_namespace "kube-system" (by decide)
    [({ type := "ADDED", namespace_name := "kube-system" },
      honest_env ["pods"] ["deployments"] [])]
    { custom_cluster_role := none, role_bindings := [] }

/-- C4: Processing an event of type MODIFIED or DELETED performs no
mutation: the loop body returns the cluster state unchanged (shared role
and all bindings) and raises no error. -/
theorem C4_modified_deleted_no_mutation (env : EventEnv) (s : ClusterState)
    (ev : NamespaceEvent)
    (h : ev.type = "MODIFIED" ∨ ev.type = "DELETED") :
    process_event env s ev = (s, none) := by
  unfold process_event
  rcases h with h | h <;> simp [h]

/-- C5: Invoking the binding-creation step twice for the same non-protected
namespace, in an environment where every API call succeeds, results in
exactly one binding named `<namespace>-custom-rolebinding` in that
namespace when none existed before; the second invocation detects the
existing binding via the existence check and is a no-op. -/
theorem C5_binding_step_idempotent (l1 l2 l3 : List String) (ns : String)
    (s : ClusterState) (hns : ns ∉ PROTECTED_NAMESPACES)
    (h0 : binding_count s ns (ns ++ "-custom-rolebinding") = 0) :
    (process_event (honest_env l1 l2 l3) s
        { type := "ADDED", namespace_name := ns }).2 = none ∧
    binding_count
      (process_event (honest_env l1 l2 l3) s
        { type := "ADDED", namespace_name := ns }).1
      ns (ns ++ "-custom-rolebinding") = 1 ∧
    process_event (honest_env l1 l2 l3)
      (process_event (honest_env l1 l2 l3) s
        { type := "ADDED", namespace_name := ns }).1
      { type := "ADDED", namespace_name := ns } =
    ((process_event (honest_env l1 l2 l3) s
        { type := "ADDED", namespace_name := ns }).1, none) := by
  have hb0 : has_binding s ns (ns ++ "-custom-rolebinding") = false :=
    (has_binding_eq_false_iff s ns _).mpr h0
  rw [process_event_honest_step l1 l2 l3 ns s hns,
    if_neg (show ¬(has_binding s ns (ns ++ "-custom-rolebinding") = true) by
      simp [hb0])]
  refine ⟨rfl, ?_, ?_⟩
  · simp only [binding_count] at h0 ⊢
    simp [List.filter_cons, create_custom_role_binding_body,
      bindings_if_recreate, h0]
  · rw [process_event_honest_step l1 l2 l3 ns _ hns]
    simp [has_binding_after_create,
      custom_role_if_recreate_honest l1 l2 l3 s]

/-- Witness for C5: a fresh cluster and the namespace team-a. -/
theorem C5_witness :
    (process_event (honest_env ["pods"] ["deployments"] [])
        { custom_cluster_role := none, role_bindings := [] }
        { type := "ADDED", namespace_name := "team-a" }).2 = none ∧
    binding_count
      (process_event (honest_env ["pods"] ["deployments"] [])
        { custom_cluster_role := none, role_bindings := [] }
        { type := "ADDED", namespace_name := "team-a" }).1
      "team-a" ("team-a" ++ "-custom-rolebinding") = 1 ∧
    process_event (honest_env ["pods"] ["deployments"] [])
      (process_event (honest_env ["pods"] ["deployments"] [])
        { custom_cluster_role := none, role_bindings := [] }
        { type := "ADDED", namespace_name := "team-a" }).1
      { type := "ADDED", namespace_name := "team-a" } =
    ((process_event (honest_env ["pods"] ["deployments"] [])
        { custom_cluster_role := none, role_bindings := [] }
        { type := "ADDED", namespace_name := "team-a" }).1, none) :=
  C5_binding_step_idempotent ["pods"] ["deployments"] [] "team-a"
    { custom_cluster_role := none, role_bindings := [] }
    (by decide) (by decide)

/-- Witness for C4 at a concrete MODIFIED event. -/
theorem C4_witness :
    process_event (honest_env ["pods"] [] [])
      { custom_cluster_role := none,
        role_bindings := [] }
      { type := "MODIFIED", namespace_name := "team-a" } =
    ({ custom_cluster_role := none, role_bindings := [] }, none) :=
  C4_modified_deleted_no_mutation (honest_env ["pods"] [] [])
    { custom_cluster_role := none, role_bindings := [] }
    { type := "MODIFIED", namespace_name := "team-a" } (Or.inl rfl)

/-- C6: For both existence checks, a successful underlying read yields
`true`, a 404 failure yields `false`, and any other API failure is
re-raised, never silently treated as absence. -/
theorem C6_existence_check_error_handling (e : ApiErr) :
    (cluster_role_exists (.ok ()) = .ok true ∧
      role_binding_exists (.ok ()) = .ok true) ∧
    (e.status = 404 →
      cluster_role_exists (.error e) = .ok false ∧
      role_binding_exists (.error e) = .ok false) ∧
    (e.status ≠ 404 →
      cluster_role_exists (.error e) = .error e ∧
      role_binding_exists (.error e) = .error e) := by
  refine ⟨⟨rfl, rfl⟩, ?_, ?_⟩
  · intro h
    constructor <;> simp [cluster_role_exists, role_binding_exists, h]
  · intro h
    constructor <;> simp [cluster_role_exists, role_binding_exists, h]

/-- Witness for C6 at statuses 404 and 500. -/
theorem C6_witness :
    (cluster_role_exists (.error { status := 404 }) = .ok false ∧
      role_binding_exists (.error { status := 404 }) = .ok false) ∧
    (cluster_role_exists (.error { status := 500 }) =
        .error { status := 500 } ∧
      role_binding_exists (.error { status := 500 }) =
        .error { status := 500 }) :=
  ⟨(C6_existence_check_error_handling { status := 404 }).2.1 rfl,
   (C6_existence_check_error_handling { status := 500 }).2.2 (by decide)⟩

/-- C7: From any state in which the shared role is absent, an ADDED event
for a non-protected namespace re-runs the classification and recreates the
shared role before the binding attempt: in an all-honest environment the
resulting state holds the role rebuilt from the current catalogs, no error
escapes, and the binding exists afterwards.  If the recreation sub-step
fails (here: the role creation raises), the error is caught and the
iteration still proceeds to the binding step: the binding exists afterwards
and no error escapes. -/
theorem C7_self_healing (l1 l2 l3 : List String) (ns : String)
    (s : ClusterState) (res : List String) (e : ApiErr)
    (hns : ns ∉ PROTECTED_NAMESPACES)
    (habsent : s.custom_cluster_role = none)
    (hres : get_non_privilege_resource_list (.ok l1) (.ok l2) (.ok l3) =
      .ok res) :
    ((process_event (honest_env l1 l2 l3) s
        { type := "ADDED", namespace_name := ns }).1.custom_cluster_role =
        some (create_custom_cluster_role_body res) ∧
      (process_event (honest_env l1 l2 l3) s
        { type := "ADDED", namespace_name := ns }).2 = none ∧
      has_binding (process_event (honest_env l1 l2 l3) s
        { type := "ADDED", namespace_name := ns }).1 ns
        (ns ++ "-custom-rolebinding") = true) ∧
    ((process_event { honest_env l1 l2 l3 with create_role_fault := some e }
        s { type := "ADDED", namespace_name := ns }).2 = none ∧
      has_binding (process_event
        { honest_env l1 l2 l3 with create_role_fault := some e } s
        { type := "ADDED", namespace_name := ns }).1 ns
        (ns ++ "-custom-rolebinding") = true) := by
  have hcomp : ((l1 ++ l2 ++ l3).filter
      (fun r => decide (r ∉ ROLE_RESOURCES))).dedup = res := by
    simpa [get_non_privilege_resource_list, get_resource_list] using hres
  have hrole : (if s.custom_cluster_role.isSome then s
      else try_recreate_role (honest_env l1 l2 l3) s).custom_cluster_role =
      some (create_custom_cluster_role_body res) := by
    rw [if_neg (by simp [habsent]),
      try_recreate_role_honest l1 l2 l3 s habsent, hcomp]
  have hbp := process_event_step_binding_present (honest_env l1 l2 l3) ns s
    rfl rfl rfl hns
  have hbp2 := process_event_step_binding_present
    { honest_env l1 l2 l3 with create_role_fault := some e } ns s
    rfl rfl rfl hns
  refine ⟨⟨?_, hbp.2, hbp.1⟩, hbp2.2, hbp2.1⟩
  rw [process_event_honest_step l1 l2 l3 ns s hns]
  by_cases hb : has_binding s ns (ns ++ "-custom-rolebinding") = true
  · rw [if_pos hb]; exact hrole
  · rw [if_neg hb]; exact hrole

/-- Witness for C7 from an empty cluster and namespace team-a. -/
theorem C7_witness :
    ((process_event (honest_env ["pods"] ["deployments"] [])
        { custom_cluster_role := none, role_bindings := [] }
        { type := "ADDED", namespace_name := "team-a" }).1.custom_cluster_role
        = some (create_custom_cluster_role_body ["pods", "deployments"]) ∧
      (process_event (honest_env ["pods"] ["deployments"] [])
        { custom_cluster_role := none, role_bindings := [] }
        { type := "ADDED", namespace_name := "team-a" }).2 = none ∧
      has_binding (process_event (honest_env ["pods"] ["deployments"] [])
        { custom_cluster_role := none, role_bindings := [] }
        { type := "ADDED", namespace_name := "team-a" }).1 "team-a"
        ("team-a" ++ "-custom-rolebinding") = true) ∧
    ((process_event { honest_env ["pods"] ["deployments"] [] with
          create_role_fault := some { status := 503 } }
        { custom_cluster_role := none, role_bindings := [] }
        { type := "ADDED", namespace_name := "team-a" }).2 = none ∧
      has_binding (process_event { honest_env ["pods"] ["deployments"] [] with
          create_role_fault := some { status := 503 } }
        { custom_cluster_role := none, role_bindings := [] }
        { type := "ADDED", namespace_name := "team-a" }).1 "team-a"
        ("team-a" ++ "-custom-rolebinding") = true) :=
  C7_self_healing ["pods"] ["deployments"] [] "team-a"
    { custom_cluster_role := none, role_bindings := [] }
    ["pods", "deployments"] { status := 503 } (by decide) rfl rfl

/-- C8: Starting from any state with no bindings, the event sequence
[ADDED team-a, MODIFIED team-a, ADDED kube-system, ADDED team-a] processed
with all-honest environments creates exactly one binding in total:
`team-a-custom-rolebinding` in namespace team-a (and hence none in
kube-system), with no error escaping the loop. -/
theorem C8_concrete_event_sequence (cr : Option V1ClusterRole) :
    run_events
      [({ type := "ADDED", namespace_name := "team-a" },
          honest_env ["pods"] ["deployments"] ["foos"]),
        ({ type := "MODIFIED", namespace_name := "team-a" },
          honest_env ["pods"] ["deployments"] ["foos"]),
        ({ type := "ADDED", namespace_name := "kube-system" },
          honest_env ["pods"] ["deployments"] ["foos"]),
        ({ type := "ADDED", namespace_name := "team-a" },
          honest_env ["pods"] ["deployments"] ["foos"])]
      { custom_cluster_role := cr, role_bindings := [] } =
    ((run_events
      [({ type := "ADDED", namespace_name := "team-a" },
          honest_env ["pods"] ["deployments"] ["foos"]),
        ({ type := "MODIFIED", namespace_name := "team-a" },
          honest_env ["pods"] ["deployments"] ["foos"]),
        ({ type := "ADDED", namespace_name := "kube-system" },
          honest_env ["pods"] ["deployments"] ["foos"]),
        ({ type := "ADDED", namespace_name := "team-a" },
          honest_env ["pods"] ["deployments"] ["foos"])]
      { custom_cluster_role := cr, role_bindings := [] }).1, none) ∧
    (run_events
      [({ type := "ADDED", namespace_name := "team-a" },
          honest_env ["pods"] ["deployments"] ["foos"]),
        ({ type := "MODIFIED", namespace_name := "team-a" },
          honest_env ["pods"] ["deployments"] ["foos"]),
        ({ type := "ADDED", namespace_name := "kube-system" },
          honest_env ["pods"] ["deployments"] ["foos"]),
        ({ type := "ADDED", namespace_name := "team-a" },
          honest_env ["pods"] ["deployments"] ["foos"])]
      { custom_cluster_role := cr, role_bindings := [] }).1.role_bindings =
    [create_custom_role_binding_body "team-a" "team-a-custom-rolebinding"
      CUSTOM_ROLE_NAME "ClusterRole"] := by
  cases cr <;> exact ⟨rfl, rfl⟩

/-- C9 counterexample: `get_resource_list` itself does not deduplicate: a
name returned by two catalogs appears twice in its result. -/
theorem C9_counterexample :
    get_resource_list (.ok ["pods"]) (.ok ["pods"]) (.ok []) =
      .ok ["pods", "pods"] ∧
    (["pods", "pods"] : List String).count "pods" = 2 :=
  ⟨rfl, rfl⟩

/-- C9 (amended): `get_resource_list` returns the plain concatenation of
the three catalog lists, duplicates across origins included; set-semantics
deduplication happens in `get_non_privilege_resource_list`, whose result
holds each name at most once and exactly the non-privileged names. -/
theorem C9_dedup_in_non_privilege_list (l1 l2 l3 res : List String)
    (h : get_non_privilege_resource_list (.ok l1) (.ok l2) (.ok l3) =
      .ok res) :
    get_resource_list (.ok l1) (.ok l2) (.ok l3) = .ok (l1 ++ l2 ++ l3) ∧
    res.Nodup ∧
    ∀ x, x ∈ res ↔ (x ∈ l1 ++ l2 ++ l3 ∧ x ∉ ROLE_RESOURCES) := by
  have h2 : ((l1 ++ l2 ++ l3).filter
      (fun r => decide (r ∉ ROLE_RESOURCES))).dedup = res := by
    simpa [get_non_privilege_resource_list, get_resource_list] using h
  subst h2
  refine ⟨rfl, List.nodup_dedup _, ?_⟩
  intro x
  simp [List.mem_dedup, List.mem_filter]
  tauto

/-- Witness for C9 (amended) at concrete catalogs. -/
theorem C9_witness :
    get_resource_list (.ok ["pods", "roles"]) (.ok ["pods"]) (.ok []) =
      .ok (["pods", "roles"] ++ ["pods"] ++ []) ∧
    (["pods"] : List String).Nodup ∧
    ∀ x, x ∈ (["pods"] : List String) ↔
      (x ∈ ["pods", "roles"] ++ ["pods"] ++ [] ∧ x ∉ ROLE_RESOURCES) :=
  C9_dedup_in_non_privilege_list ["pods", "roles"] ["pods"] [] ["pods"] rfl

/-- C10: Within the loop body for a qualifying event, a non-404 API error
from either existence check propagates uncaught (for the role check, with
the state unchanged, and it terminates the loop regardless of remaining
events); whereas when neither existence check is faulted, no error escapes
the iteration at all — any exception from the two creation calls
(shared-role recreation including its classification queries, and binding
creation) is caught and only logged. -/
theorem C10_only_creation_errors_caught (env : EventEnv) (s : ClusterState)
    (ev : NamespaceEvent) (e : ApiErr)
    (rest : List (NamespaceEvent × EventEnv))
    (ht1 : ev.type ≠ "DELETED") (ht2 : ev.type ≠ "MODIFIED")
    (hp : ev.namespace_name ∉ PROTECTED_NAMESPACES)
    (h404 : e.status ≠ 404) :
    (env.read_role_fault = some e →
      process_event env s ev = (s, some e) ∧
      run_events ((ev, env) :: rest) s = (s, some e)) ∧
    (env.read_role_fault = none → env.read_binding_fault = some e →
      (process_event env s ev).2 = some e ∧
      run_events ((ev, env) :: rest) s =
        ((process_event env s ev).1, some e)) ∧
    (env.read_role_fault = none → env.read_binding_fault = none →
      (process_event env s ev).2 = none) := by
  have hskip : ¬(ev.type = "DELETED" ∨ ev.type = "MODIFIED") := by
    rintro (h | h)
    · exact ht1 h
    · exact ht2 h
  refine ⟨?_, ?_, ?_⟩
  · intro hf
    have hpe : process_event env s ev = (s, some e) := by
      unfold process_event
      rw [if_neg hskip, if_neg hp, hf]
      simp [read_cluster_role, cluster_role_exists, h404]
    refine ⟨hpe, ?_⟩
    unfold run_events
    rw [hpe]
  · intro hf1 hf2
    have h2 : (process_event env s ev).2 = some e := by
      unfold process_event
      rw [if_neg hskip, if_neg hp, hf1, hf2]
      simp [cluster_role_exists_no_fault, read_namespaced_role_binding,
        role_binding_exists, h404]
    refine ⟨h2, ?_⟩
    have hsplit : process_event env s ev =
        ((process_event env s ev).1, some e) := by
      rw [← h2]
    unfold run_events
    rw [hsplit]
  · intro hf1 hf2
    unfold process_event
    rw [if_neg hskip, if_neg hp, hf1, hf2]
    simp only [cluster_role_exists_no_fault, role_binding_exists_no_fault]
    split <;> split <;> first
      | rfl
      | (split <;> rfl)

/-- Witness for C10: a 500 on each existence check propagates; with honest
existence checks nothing escapes. -/
theorem C10_witness :
    (process_event { honest_env ["pods"] [] [] with
        read_role_fault := some { status := 500 } }
      { custom_cluster_role := none, role_bindings := [] }
      { type := "ADDED", namespace_name := "team-a" } =
      ({ custom_cluster_role := none, role_bindings := [] },
        some { status := 500 })) ∧
    ((process_event { honest_env ["pods"] [] [] with
        read_binding_fault := some { status := 500 } }
      { custom_cluster_role := none, role_bindings := [] }
      { type := "ADDED", namespace_name := "team-a" }).2 =
      some { status := 500 }) ∧
    ((process_event (honest_env ["pods"] [] [])
      { custom_cluster_role := none, role_bindings := [] }
      { type := "ADDED", namespace_name := "team-a" }).2 = none) :=
  ⟨((C10_only_creation_errors_caught
      { honest_env ["pods"] [] [] with
        read_role_fault := some { status := 500 } }
      { custom_cluster_role := none, role_bindings := [] }
      { type := "ADDED", namespace_name := "team-a" } { status := 500 } []
      (by decide) (by decide) (by decide) (by decide)).1 rfl).1,
   ((C10_only_creation_errors_caught
      { honest_env ["pods"] [] [] with
        read_binding_fault := some { status := 500 } }
      { custom_cluster_role := none, role_bindings := [] }
      { type := "ADDED", namespace_name := "team-a" } { status := 500 } []
      (by decide) (by decide) (by decide) (by decide)).2.1 rfl rfl).1,
   (C10_only_creation_errors_caught (honest_env ["pods"] [] [])
      { custom_cluster_role := none, role_bindings := [] }
      { type := "ADDED", namespace_name := "team-a" } { status := 500 } []
      (by decide) (by decide) (by decide) (by decide)).2.2 rfl rfl⟩

end RolePatcher
